import Mathlib

/-!
# Verification of the label-driven expense-form filling engine

Shallow embedding of `src/contentScript.ts` of the `orchestra-expense`
repository.  The DOM is modelled as a list of form groups, each pairing a
label with one control (text input, single select, or radio group) plus the
two visual annotation slots the script writes (`markLowConfidenceField` /
`markUnknownField`).  Regex label patterns of the source, which are all
case-insensitive sequences of literal pieces separated by `.*`, are modelled
as lists of literal pieces matched in order, case-insensitively.
Confidence scores are rationals.
-/

set_option maxRecDepth 4000

namespace Orchestra

/-! ## String helpers (JS `toLowerCase`, `trim`, `includes`, regex pieces) -/

/-- Whitespace characters relevant to the script's normalisation and `trim`. -/
def isWSChar (c : Char) : Bool :=
  c == ' ' || c == '\n' || c == '\r' || c == '\t'

/-- JS `String.prototype.toLowerCase` (ASCII-level model). -/
def lowerStr (s : String) : String :=
  String.mk (s.data.map Char.toLower)

/-- JS `String.prototype.trim`. -/
def trimStr (s : String) : String :=
  String.mk (((s.data.dropWhile isWSChar).reverse.dropWhile isWSChar).reverse)

/-- One step of collapsing whitespace runs to a single space
(`.replace(/\s+/g, ' ')` in `normalizeText`); the flag records whether the
previous emitted character was the collapsed space. -/
def collapseWSAux : Bool → List Char → List Char
  | _, [] => []
  | prevWS, c :: t =>
    if isWSChar c then
      if prevWS then collapseWSAux true t else ' ' :: collapseWSAux true t
    else c :: collapseWSAux false t

/-- `normalizeText` of `findFieldByLabel`: collapse whitespace runs, trim,
lower-case. -/
def normalizeText (s : String) : String :=
  let collapsed := collapseWSAux false s.data
  let trimmed := ((collapsed.dropWhile isWSChar).reverse.dropWhile isWSChar).reverse
  String.mk (trimmed.map Char.toLower)

/-- `needle` is a prefix of `hay` (on character lists). -/
def isPrefixL : List Char → List Char → Bool
  | [], _ => true
  | _ :: _, [] => false
  | a :: as, b :: bs => a == b && isPrefixL as bs

/-- `hay` contains `needle` as a contiguous substring (JS `includes`,
case-sensitive; call sites lower-case both sides as the source does). -/
def containsL (needle : List Char) : List Char → Bool
  | [] => isPrefixL needle []
  | c :: t => isPrefixL needle (c :: t) || containsL needle t

/-- JS `hay.includes(needle)`. -/
def strContains (hay needle : String) : Bool :=
  containsL needle.data hay.data

/-- Remainder of `hay` after the first occurrence of `needle`, if any. -/
def findAfter (needle : List Char) : List Char → Option (List Char)
  | [] => if isPrefixL needle [] then some [] else none
  | c :: t =>
    if isPrefixL needle (c :: t) then some ((c :: t).drop needle.length)
    else findAfter needle t

/-- The pieces occur in `hay` in order, each after the end of the previous:
the semantics of a regex `p1.*p2.*…*pn` on literal pieces. -/
def inOrderPieces : List (List Char) → List Char → Bool
  | [], _ => true
  | p :: ps, hay =>
    match findAfter p hay with
    | some rest => inOrderPieces ps rest
    | none => false

/-- A source regex `/p1.*p2.*…/i` (literal pieces, `i` flag) tested against a
string. -/
def patTest (pieces : List String) (s : String) : Bool :=
  inOrderPieces (pieces.map (fun p => (lowerStr p).data)) ((lowerStr s).data)

/-! ## Data model (`types.ts` and the DOM abstraction) -/

/-- One `{value, confidence}` cell of `ParsedExpenseData`. -/
structure FieldConf where
  value : String
  confidence : ℚ
deriving DecidableEq, Repr

/-- `ParsedExpenseData` from `types.ts`.  `total_amount` holds the already
stringified amount (`String(data.total_amount.value)` at the call site). -/
structure ParsedExpenseData where
  purchaser_name : FieldConf
  netid : FieldConf
  club_name : FieldConf
  payment_method : FieldConf
  vendor_name : FieldConf
  date_of_expense : FieldConf
  total_amount : FieldConf
  purchase_type : FieldConf
  event_link : FieldConf
  description : FieldConf
deriving DecidableEq, Repr

/-- `FillResult` from `types.ts`. -/
structure FillResult where
  fieldName : String
  filled : Bool
  confidence : ℚ
  value : Option String
  needsReview : Bool
deriving DecidableEq, Repr

/-- `FillSummary` from `types.ts`. -/
structure FillSummary where
  results : List FillResult
  totalFields : Nat
  filledFields : Nat
  lowConfidenceFields : Nat
deriving DecidableEq, Repr

/-- The interactive control inside one `.form-group`:
a text entry (`input.free-text` / `input[type=text]` / `textarea`, with its
current value and the `data-autofilled` provenance attribute), a `select`
(option label/value pairs and currently selected value), a radio group
(label text and checked flag per radio; assigning `checked` on one radio
clears its siblings, as native same-name radios do), or no control. -/
inductive Control where
  | textInput (value : String) (autofilled : Bool)
  | selectCtl (options : List (String × String)) (selected : String)
  | radioCtl (radios : List (String × Bool))
  | noCtl
deriving DecidableEq, Repr

/-- A `.form-group`: label text, its control, and the two annotation slots
written by `markLowConfidenceField` (tooltip of the low-confidence warning)
and `markUnknownField` (tooltip of the unknown-field warning). -/
structure FormGroup where
  label : String
  control : Control
  lowConfWarning : Option String := none
  unknownWarning : Option String := none
deriving DecidableEq, Repr

/-- The current document: its form groups in order. -/
def Doc : Type := List FormGroup

/-! ## Confidence policy (`CONFIDENCE_THRESHOLD`, `UNKNOWN_THRESHOLD`,
`isUnknownValue`) -/

def CONFIDENCE_THRESHOLD : ℚ := mkRat 8 10

def UNKNOWN_THRESHOLD : ℚ := mkRat 5 10

/-- The literal unknown markers checked by `isUnknownValue` and by the
always-fill branch of `fillTextFieldByPattern` (applied to the lower-cased,
trimmed value). -/
def isMarkerStr (s : String) : Bool :=
  s == "n/a" || s == "na" || s == "none" || s == "unknown"

/-- `isUnknownValue(value, confidence)` from `contentScript.ts`. -/
def isUnknownValue (value : String) (confidence : ℚ) : Bool :=
  if value == "" || trimStr value == "" then true
  else if isMarkerStr (trimStr (lowerStr value)) then true
  else if confidence < UNKNOWN_THRESHOLD then true
  else false

/-! ## Annotation (Review Annotator) and result constructors -/

/-- `markLowConfidenceField`: styles the group and creates/updates the
low-confidence warning with the given tooltip text. -/
def markLowConfidenceField (g : FormGroup) (tooltipText : String) : FormGroup :=
  { g with lowConfWarning := some tooltipText }

/-- `markUnknownField`: styles the group, removes any previous unknown
warning and attaches a fresh one with the given tooltip text. -/
def markUnknownField (g : FormGroup) (tooltipText : String) : FormGroup :=
  { g with unknownWarning := some tooltipText }

/-- The `{fieldName, filled:false, confidence:0, needsReview:false}` result
the writers return both for a missing group/control and for a collision
with pre-existing content. -/
def noActionResult (fieldName : String) : FillResult :=
  ⟨fieldName, false, 0, none, false⟩

/-- The `{fieldName, filled:false, confidence:0, needsReview:true,
value:undefined}` result returned on the unknown / no-matching-option
paths. -/
def unknownResult (fieldName : String) : FillResult :=
  ⟨fieldName, false, 0, none, true⟩

/-- JS `Math.round(confidence * 100)` as rendered into the tooltips. -/
def confPercent (confidence : ℚ) : ℤ := round (confidence * 100)

def textUnknownMsg : String :=
  "This field could not be determined from the receipt. Please fill it manually."

def selectUnknownMsg : String :=
  "This field could not be determined from the receipt. Please select an option manually."

def noMatchMsg (value : String) : String :=
  "Could not find matching option for \"" ++ value ++ "\". Please select manually."

def lowConfMsg (confidence : ℚ) : String :=
  "Low confidence (" ++ toString (confPercent confidence) ++ "%). Please review."

def descLowConfMsg (confidence : ℚ) : String :=
  "AI-generated description (confidence: " ++ toString (confPercent confidence) ++
    "%). Please review and edit if needed."

/-! ## Field writers (per located group) -/

/-- The collision test of `fillTextFieldByPattern`:
`input.value && input.value.trim() !== '' && !input.hasAttribute('data-autofilled')`. -/
def collisionOf (curVal : String) (autofilled : Bool) : Bool :=
  !(curVal == "") && !(trimStr curVal == "") && !autofilled

/-- Body of `fillTextFieldByPattern` once the form group has been located:
find the text entry, then the always-fill branch, the unknown check, the
collision check, and finally the write (which sets `data-autofilled` and
fires the change events). -/
def textWriteCore (fieldName value : String) (confidence : ℚ)
    (alwaysFillIfNotEmpty : Bool) (g : FormGroup) : FillResult × FormGroup :=
  match g.control with
  | Control.textInput curVal autofilled =>
    if alwaysFillIfNotEmpty && !(value == "") && !(trimStr value == "") &&
        !(isMarkerStr (trimStr (lowerStr value))) then
      if collisionOf curVal autofilled then (noActionResult fieldName, g)
      else
        let needsReview := confidence < CONFIDENCE_THRESHOLD
        let g1 : FormGroup := { g with control := Control.textInput value true }
        let g2 := if needsReview then markLowConfidenceField g1 (descLowConfMsg confidence) else g1
        (⟨fieldName, true, confidence, some value, needsReview⟩, g2)
    else if isUnknownValue value confidence then
      (unknownResult fieldName, markUnknownField g textUnknownMsg)
    else if collisionOf curVal autofilled then (noActionResult fieldName, g)
    else
      let needsReview := confidence < CONFIDENCE_THRESHOLD
      let g1 : FormGroup := { g with control := Control.textInput value true }
      let g2 := if needsReview then markLowConfidenceField g1 (lowConfMsg confidence) else g1
      (⟨fieldName, true, confidence, some value, needsReview⟩, g2)
  | _ => (noActionResult fieldName, g)

/-- The bidirectional case-insensitive containment test of
`fillDropdownByPattern`: option text contains the value, or the value
contains the option text. -/
def optionMatches (value : String) (opt : String × String) : Bool :=
  strContains (lowerStr opt.1) (lowerStr value) ||
    strContains (lowerStr value) (lowerStr opt.1)

/-- Body of `fillDropdownByPattern` once the form group has been located. -/
def dropdownWriteCore (fieldName value : String) (confidence : ℚ)
    (g : FormGroup) : FillResult × FormGroup :=
  match g.control with
  | Control.selectCtl options _selected =>
    if isUnknownValue value confidence then
      (unknownResult fieldName, markUnknownField g selectUnknownMsg)
    else
      match options.find? (optionMatches value) with
      | some opt =>
        if !(opt.2 == "-1") then
          let needsReview := confidence < CONFIDENCE_THRESHOLD
          let g1 : FormGroup := { g with control := Control.selectCtl options opt.2 }
          let g2 := if needsReview then markLowConfidenceField g1 (lowConfMsg confidence) else g1
          (⟨fieldName, true, confidence, some (if opt.1 == "" then value else opt.1), needsReview⟩, g2)
        else (unknownResult fieldName, markUnknownField g (noMatchMsg value))
      | none => (unknownResult fieldName, markUnknownField g (noMatchMsg value))
  | _ => (noActionResult fieldName, g)

/-- The `valueMappings` table of `fillRadioGroupByPattern`, mapping the
canonical record values of the two radio-group fields to label regexes. -/
def valueMappings (fieldName value : String) : List (List String) :=
  if fieldName == "Payment Method" then
    if value == "club_card_no_extra" then
      [["club spending card", "without", "additional funding"],
       ["club spending card", "no", "extra"]]
    else if value == "club_card_with_extra" then
      [["club spending card", "with", "additional funding"],
       ["club spending card", "with", "extra"]]
    else if value == "out_of_pocket" then [["out of pocket"]]
    else []
  else if fieldName == "Purchase Type" then
    if value == "food" then [["food"]]
    else if value == "apparel" then [["apparel"], ["clothing"]]
    else if value == "subscription" then [["subscription"]]
    else if value == "other" then [["other"]]
    else []
  else []

/-- `patterns.some(pattern => pattern.test(labelText))`. -/
def radioLabelMatches (patterns : List (List String)) (labelText : String) : Bool :=
  patterns.any (fun p => patTest p labelText)

/-- First radio (in document order) whose label text matches one of the
patterns, with its index and label text. -/
def findRadioIdx (patterns : List (List String)) :
    List (String × Bool) → Option (Nat × String)
  | [] => none
  | (l, _) :: t =>
    if radioLabelMatches patterns l then some (0, l)
    else (findRadioIdx patterns t).map (fun p => (p.1 + 1, p.2))

/-- Setting `radio.checked = true` on the radio at index `i`: native
same-name radios clear their siblings. -/
def checkRadioAt (i : Nat) (radios : List (String × Bool)) : List (String × Bool) :=
  radios.enum.map (fun p => (p.2.1, p.1 == i))

/-- Body of `fillRadioGroupByPattern` once the form group has been located. -/
def radioWriteCore (fieldName value : String) (confidence : ℚ)
    (g : FormGroup) : FillResult × FormGroup :=
  match g.control with
  | Control.radioCtl radios =>
    if radios.isEmpty then (noActionResult fieldName, g)
    else if isUnknownValue value confidence then
      (unknownResult fieldName, markUnknownField g selectUnknownMsg)
    else
      let patterns0 := valueMappings fieldName value
      let patterns := if patterns0.isEmpty then [[value]] else patterns0
      match findRadioIdx patterns radios with
      | some p =>
        let needsReview := confidence < CONFIDENCE_THRESHOLD
        let g1 : FormGroup := { g with control := Control.radioCtl (checkRadioAt p.1 radios) }
        let g2 := if needsReview then markLowConfidenceField g1 (lowConfMsg confidence) else g1
        (⟨fieldName, true, confidence, some (trimStr p.2), needsReview⟩, g2)
      | none => (unknownResult fieldName, markUnknownField g (noMatchMsg value))
  | _ => (noActionResult fieldName, g)

/-! ## Field locator (`findFieldByLabel`) and pattern-level writers -/

/-- `findFieldByLabel`: a group is a hit when the pattern matches its
normalised label text or its raw label text (both case-insensitively, as
the `i` flag is set on both regexes in the source). -/
def groupMatches (pat : List String) (g : FormGroup) : Bool :=
  patTest pat (normalizeText g.label) || patTest pat g.label

/-- Apply `f` to the first group matching the pattern (the group
`findFieldByLabel` returns), keeping the rest of the document; `nf` is the
result when no group matches. -/
def updateFirstMatch (pat : List String) (f : FormGroup → FillResult × FormGroup)
    (nf : FillResult) : List FormGroup → FillResult × List FormGroup
  | [] => (nf, [])
  | g :: t =>
    if groupMatches pat g then
      let r := f g
      (r.1, r.2 :: t)
    else
      let r := updateFirstMatch pat f nf t
      (r.1, g :: r.2)

/-- `fillTextFieldByPattern`. -/
def fillTextFieldByPattern (labelPattern : List String) (fieldName value : String)
    (confidence : ℚ) (alwaysFillIfNotEmpty : Bool) (doc : List FormGroup) :
    FillResult × List FormGroup :=
  updateFirstMatch labelPattern
    (textWriteCore fieldName value confidence alwaysFillIfNotEmpty)
    (noActionResult fieldName) doc

/-- `fillDropdownByPattern`. -/
def fillDropdownByPattern (labelPattern : List String) (fieldName value : String)
    (confidence : ℚ) (doc : List FormGroup) : FillResult × List FormGroup :=
  updateFirstMatch labelPattern (dropdownWriteCore fieldName value confidence)
    (noActionResult fieldName) doc

/-- `fillRadioGroupByPattern`. -/
def fillRadioGroupByPattern (labelPattern : List String) (fieldName value : String)
    (confidence : ℚ) (doc : List FormGroup) : FillResult × List FormGroup :=
  updateFirstMatch labelPattern (radioWriteCore fieldName value confidence)
    (noActionResult fieldName) doc

/-! ## Date normalisation (`formatDate`) -/

/-- The `/^\d{2}\/\d{2}\/\d{4}$/` shape test of `formatDate`. -/
def matchesMMDDYYYY (s : String) : Bool :=
  match s.data with
  | [m1, m2, s1, d1, d2, s2, y1, y2, y3, y4] =>
    m1.isDigit && m2.isDigit && s1 == '/' && d1.isDigit && d2.isDigit &&
      s2 == '/' && y1.isDigit && y2.isDigit && y3.isDigit && y4.isDigit
  | _ => false

/-- Numeric value of a digit character list (most significant first). -/
def digitsToNat : List Char → Nat
  | [] => 0
  | c :: t => (c.toNat - '0'.toNat) * 10 ^ t.length + digitsToNat t

/-- Model of the host's `new Date(dateStr)` constructor on the
`YYYY-MM-DD` strings the source targets (see its comment "Try to parse
YYYY-MM-DD format"): returns `(month, day, year)` exactly when the string
is a plausible ISO date, `none` otherwise (the `isNaN(date.getTime())`
branch).  Time-zone effects of the host engine are outside the model. -/
def parseISODate (s : String) : Option (Nat × Nat × Nat) :=
  match s.data with
  | [y1, y2, y3, y4, h1, m1, m2, h2, d1, d2] =>
    if y1.isDigit && y2.isDigit && y3.isDigit && y4.isDigit && h1 == '-' &&
        m1.isDigit && m2.isDigit && h2 == '-' && d1.isDigit && d2.isDigit then
      let m := digitsToNat [m1, m2]
      let d := digitsToNat [d1, d2]
      let y := digitsToNat [y1, y2, y3, y4]
      if 1 ≤ m && m ≤ 12 && 1 ≤ d && d ≤ 31 then some (m, d, y) else none
    else none
  | _ => none

/-- JS `String(n).padStart(2, '0')` for the month/day numbers. -/
def pad2 (n : Nat) : String :=
  if n < 10 then "0" ++ toString n else toString n

/-- `formatDate` from `contentScript.ts`. -/
def formatDate (dateStr : String) : String :=
  if dateStr == "" then ""
  else if matchesMMDDYYYY dateStr then dateStr
  else
    match parseISODate dateStr with
    | some p => pad2 p.1 ++ "/" ++ pad2 p.2.1 ++ "/" ++ toString p.2.2
    | none => dateStr

/-! ## Form fill orchestrator (`fillExpenseForm`) -/

/-- Which writer a `fieldMappings` entry invokes. -/
inductive WriterKind where
  | text (alwaysFill : Bool)
  | dropdown
  | radio
deriving DecidableEq, Repr

/-- One entry of the `fieldMappings` table with the record value and
confidence already resolved, as the handler closures do. -/
structure FieldMapping where
  labelPattern : List String
  fieldName : String
  kind : WriterKind
  value : String
  confidence : ℚ
deriving DecidableEq, Repr

/-- Dispatch one `fieldMappings` handler. -/
def runMapping (m : FieldMapping) (doc : List FormGroup) :
    FillResult × List FormGroup :=
  match m.kind with
  | WriterKind.text af =>
    fillTextFieldByPattern m.labelPattern m.fieldName m.value m.confidence af doc
  | WriterKind.dropdown =>
    fillDropdownByPattern m.labelPattern m.fieldName m.value m.confidence doc
  | WriterKind.radio =>
    fillRadioGroupByPattern m.labelPattern m.fieldName m.value m.confidence doc

/-- The `fieldMappings` table of `fillExpenseForm`, in declared order.  The
handler closures resolve each record cell; the Date of Expense handler
passes its value through `formatDate`, the Expense Amount handler passes
the stringified amount, and the Description handler sets
`alwaysFillIfNotEmpty`. -/
def fieldMappings (data : ParsedExpenseData) : List FieldMapping :=
  [⟨["purchaser name"], "Purchaser Name", WriterKind.text false,
      data.purchaser_name.value, data.purchaser_name.confidence⟩,
   ⟨["purchaser\x27s netid"], "NetID", WriterKind.text false,
      data.netid.value, data.netid.confidence⟩,
   ⟨["club/organization"], "Club/Organization", WriterKind.dropdown,
      data.club_name.value, data.club_name.confidence⟩,
   ⟨["payment method"], "Payment Method", WriterKind.radio,
      data.payment_method.value, data.payment_method.confidence⟩,
   ⟨["vendor name"], "Vendor Name", WriterKind.text false,
      data.vendor_name.value, data.vendor_name.confidence⟩,
   ⟨["date of expense"], "Date of Expense", WriterKind.text false,
      formatDate data.date_of_expense.value, data.date_of_expense.confidence⟩,
   ⟨["expense amount"], "Expense Amount", WriterKind.text false,
      data.total_amount.value, data.total_amount.confidence⟩,
   ⟨["purchase type"], "Purchase Type", WriterKind.radio,
      data.purchase_type.value, data.purchase_type.confidence⟩,
   ⟨["include the link", "nyu engage event"], "Event Link", WriterKind.text false,
      data.event_link.value, data.event_link.confidence⟩,
   ⟨["in a few sentences", "describe the reason for the purchase"], "Description",
      WriterKind.text true, data.description.value, data.description.confidence⟩]

/-- The `fieldMappings.forEach` loop with its per-field `try/catch`: a
handler that throws is caught and logged, contributes nothing to
`results`, and the remaining handlers still run. -/
def runFieldHandlers :
    List (List FormGroup → Except String (FillResult × List FormGroup)) →
    List FormGroup → List FillResult × List FormGroup
  | [], doc => ([], doc)
  | h :: t, doc =>
    match h doc with
    | Except.ok r =>
      let rest := runFieldHandlers t r.2
      (r.1 :: rest.1, rest.2)
    | Except.error _ => runFieldHandlers t doc

/-- The same loop over the (non-throwing) concrete handlers. -/
def runMappings : List FieldMapping → List FormGroup →
    List FillResult × List FormGroup
  | [], doc => ([], doc)
  | m :: t, doc =>
    let r := runMapping m doc
    let rest := runMappings t r.2
    (r.1 :: rest.1, rest.2)

/-- `fillExpenseForm(data)`: run every field handler (each wrapped in the
`try/catch` of the `forEach` loop) and aggregate the summary.  The PDF
side-channel (immediate upload attempt when the upload container is
already present) is modelled separately by the attachment agent below. -/
def fillExpenseForm (data : ParsedExpenseData) (doc : List FormGroup) :
    FillSummary × List FormGroup :=
  let out := runFieldHandlers
    ((fieldMappings data).map (fun m => fun d => Except.ok (runMapping m d))) doc
  (⟨out.1, (fieldMappings data).length,
    (out.1.filter (fun r => r.filled)).length,
    (out.1.filter (fun r => r.needsReview)).length⟩, out.2)

/-! ## Page lifecycle watcher (`checkAndRefillOnNewPage`) -/

/-- The process-wide slots consulted by `checkAndRefillOnNewPage`:
`pendingFormData`, `isRefilling`, `document.hidden`, `refillCount`,
`Date.now()` and `lastUserInteraction` (milliseconds), plus the index of
the group containing `document.activeElement`, if any. -/
structure RefillState where
  pendingFormData : Option ParsedExpenseData
  isRefilling : Bool
  docHidden : Bool
  refillCount : Nat
  now : ℤ
  lastUserInteraction : ℤ
  lastFormFieldsCount : Nat
  focusedGroup : Option Nat
deriving DecidableEq, Repr

def MAX_REFILLS_PER_PAGE : Nat := 1

/-- The emptiness test of the debounced refill body for one form group
(`input` with no value, `select` with no value or the `-1` sentinel, or a
radio group with nothing checked). -/
def groupIsEmpty (g : FormGroup) : Bool :=
  match g.control with
  | Control.textInput v _ => v == ""
  | Control.selectCtl _ sel => sel == "" || sel == "-1"
  | Control.radioCtl radios => !radios.isEmpty && radios.all (fun r => !r.2)
  | Control.noCtl => false

/-- The `groupsToCheck.some(...)` call with its side-effecting counter:
`Array.some` stops at the first empty group, so the counter it leaves
behind is `1` when an empty group exists and `0` otherwise.  Groups
containing the focused element are skipped.  Returns
(`hasEmptyFields`, `emptyFieldCount`). -/
def someCountEmpty (focusedGroup : Option Nat) : Nat → List FormGroup → Bool × Nat
  | _, [] => (false, 0)
  | i, g :: t =>
    let skip := focusedGroup == some i
    if !skip && groupIsEmpty g then (true, 1)
    else someCountEmpty focusedGroup (i + 1) t

/-- `checkAndRefillOnNewPage(force)`: the guard chain, then (for forced
attempts) the debounced body with its empty-field check.  Returns whether
`fillExpenseForm` was invoked, the new process state, and the new
document.  The settle/debounce timers are collapsed into one step (the
model is of what each scheduled body does, not of real time). -/
def checkAndRefillOnNewPage (force : Bool) (st : RefillState)
    (doc : List FormGroup) : Bool × RefillState × List FormGroup :=
  if st.pendingFormData.isNone || st.isRefilling then (false, st, doc)
  else if st.docHidden then (false, st, doc)
  else if !force && decide (MAX_REFILLS_PER_PAGE ≤ st.refillCount) then (false, st, doc)
  else if !force && decide (st.now - st.lastUserInteraction < 5000) then (false, st, doc)
  else
    let currentFieldsCount := doc.length
    if currentFieldsCount == 0 then (false, st, doc)
    else if force then
      let st1 := { st with lastFormFieldsCount := currentFieldsCount }
      if st1.pendingFormData.isNone || st1.isRefilling then (false, st1, doc)
      else
        let ec := someCountEmpty st1.focusedGroup 0 (doc.take 10)
        if ec.1 && decide (3 < ec.2) then
          match st1.pendingFormData with
          | some data =>
            let out := fillExpenseForm data doc
            (true, { st1 with refillCount := st1.refillCount + 1 }, out.2)
          | none => (false, st1, doc)
        else (false, st1, doc)
    else (false, { st with lastFormFieldsCount := currentFieldsCount }, doc)

/-! ## File attachment agent (`checkAndUploadPendingFile`, `uploadPDFFile`) -/

/-- `pendingPDFFileData` (name only; the bytes play no role in the control
flow being verified). -/
structure PendingFile where
  name : String
deriving DecidableEq, Repr

/-- The parts of the host page `uploadPDFFile` inspects: presence and
visibility of the upload container/button, presence of a usable
`input[type=file]`, whether the host form's own handler processes the
assigned file (the `temporaryFileNameField` check after the settle delay),
presence of the `AnswerId` field, and whether the manual-upload banner has
been rendered. -/
structure UploadDom where
  containerPresent : Bool
  containerVisible : Bool
  buttonPresent : Bool
  answerIdPresent : Bool
  fileInputPresent : Bool
  hostProcessesFile : Bool
  manualMessageShown : Bool
deriving DecidableEq, Repr

/-- `uploadPDFFile(file)`: its effect on the DOM and on the
`pendingPDFFileData` slot.  Clears the slot only in the success branch
(host handler observed to have processed the file); the manual-fallback
branches render the banner and leave the slot alone. -/
def uploadPDFFile (dom : UploadDom) (pending : Option PendingFile) :
    UploadDom × Option PendingFile :=
  if !dom.containerPresent then (dom, pending)
  else if !dom.answerIdPresent then (dom, pending)
  else if dom.fileInputPresent then
    if dom.hostProcessesFile then (dom, none)
    else ({ dom with manualMessageShown := true }, pending)
  else ({ dom with manualMessageShown := true }, pending)

/-- `checkAndUploadPendingFile()`: bail out unless a file is pending and
the upload container/button are present and visible; otherwise clear
`pendingPDFFileData` immediately ("to prevent duplicate uploads") and call
`uploadPDFFile`.  Returns whether an attempt ran, the new DOM, and the new
pending slot. -/
def checkAndUploadPendingFile (pending : Option PendingFile) (dom : UploadDom) :
    Bool × UploadDom × Option PendingFile :=
  match pending with
  | none => (false, dom, none)
  | some _ =>
    if !dom.containerPresent || !dom.buttonPresent then (false, dom, pending)
    else if !dom.containerVisible then (false, dom, pending)
    else
      let out := uploadPDFFile dom none
      (true, out.1, out.2)

/-! ## Write abstraction

Everything a writer reads from a form group is its label, the shape of its
control (including option/radio label data), and — for text inputs — the
collision flag; and everything a writer changes is captured by an update
record (`Upd`).  This abstraction drives the idempotence proof: the
observation is invariant under every write, so a second pass makes the
same decisions as the first. -/

/-- The part of a control a writer's decisions depend on. -/
inductive CtrlObs where
  | text (collision : Bool)
  | sel (options : List (String × String))
  | radio (labels : List String)
  | noCtl
deriving DecidableEq, Repr

def obsCtrl : Control → CtrlObs
  | Control.textInput v a => CtrlObs.text (collisionOf v a)
  | Control.selectCtl opts _ => CtrlObs.sel opts
  | Control.radioCtl rs => CtrlObs.radio (rs.map Prod.fst)
  | Control.noCtl => CtrlObs.noCtl

def obsG (g : FormGroup) : String × CtrlObs := (g.label, obsCtrl g.control)

def obsDoc (d : List FormGroup) : List (String × CtrlObs) := d.map obsG

/-- A writer's effect on one group: optional replacement of the control and
optional (over)writes of the two warning slots. -/
structure Upd where
  ctrl : Option Control
  lcw : Option String
  ukw : Option String
deriving DecidableEq, Repr

/-- Left-biased choice (the later write wins). -/
def oor {α : Type _} : Option α → Option α → Option α
  | some x, _ => some x
  | none, y => y

def applyUpd (u : Upd) (g : FormGroup) : FormGroup :=
  { label := g.label
    control := match u.ctrl with | some c => c | none => g.control
    lowConfWarning := oor u.lcw g.lowConfWarning
    unknownWarning := oor u.ukw g.unknownWarning }

def emptyUpd : Upd := ⟨none, none, none⟩

/-- `textWriteCore` at the level of observations. -/
def textAbs (fieldName value : String) (confidence : ℚ) (af : Bool) :
    CtrlObs → FillResult × Upd
  | CtrlObs.text coll =>
    if af && !(value == "") && !(trimStr value == "") &&
        !(isMarkerStr (trimStr (lowerStr value))) then
      if coll then (noActionResult fieldName, emptyUpd)
      else
        let nr := confidence < CONFIDENCE_THRESHOLD
        (⟨fieldName, true, confidence, some value, nr⟩,
         ⟨some (Control.textInput value true),
          if nr then some (descLowConfMsg confidence) else none, none⟩)
    else if isUnknownValue value confidence then
      (unknownResult fieldName, ⟨none, none, some textUnknownMsg⟩)
    else if coll then (noActionResult fieldName, emptyUpd)
    else
      let nr := confidence < CONFIDENCE_THRESHOLD
      (⟨fieldName, true, confidence, some value, nr⟩,
       ⟨some (Control.textInput value true),
        if nr then some (lowConfMsg confidence) else none, none⟩)
  | _ => (noActionResult fieldName, emptyUpd)

/-- `dropdownWriteCore` at the level of observations. -/
def dropdownAbs (fieldName value : String) (confidence : ℚ) :
    CtrlObs → FillResult × Upd
  | CtrlObs.sel options =>
    if isUnknownValue value confidence then
      (unknownResult fieldName, ⟨none, none, some selectUnknownMsg⟩)
    else
      match options.find? (optionMatches value) with
      | some opt =>
        if !(opt.2 == "-1") then
          let nr := confidence < CONFIDENCE_THRESHOLD
          (⟨fieldName, true, confidence, some (if opt.1 == "" then value else opt.1), nr⟩,
           ⟨some (Control.selectCtl options opt.2),
            if nr then some (lowConfMsg confidence) else none, none⟩)
        else (unknownResult fieldName, ⟨none, none, some (noMatchMsg value)⟩)
      | none => (unknownResult fieldName, ⟨none, none, some (noMatchMsg value)⟩)
  | _ => (noActionResult fieldName, emptyUpd)

/-- `findRadioIdx` on label lists. -/
def findLabelIdx (patterns : List (List String)) : List String → Option (Nat × String)
  | [] => none
  | l :: t =>
    if radioLabelMatches patterns l then some (0, l)
    else (findLabelIdx patterns t).map (fun p => (p.1 + 1, p.2))

/-- `checkRadioAt` on label lists. -/
def checkLabelsAt (i : Nat) (labels : List String) : List (String × Bool) :=
  labels.enum.map (fun p => (p.2, p.1 == i))

/-- `radioWriteCore` at the level of observations. -/
def radioAbs (fieldName value : String) (confidence : ℚ) :
    CtrlObs → FillResult × Upd
  | CtrlObs.radio labels =>
    if labels.isEmpty then (noActionResult fieldName, emptyUpd)
    else if isUnknownValue value confidence then
      (unknownResult fieldName, ⟨none, none, some selectUnknownMsg⟩)
    else
      let patterns0 := valueMappings fieldName value
      let patterns := if patterns0.isEmpty then [[value]] else patterns0
      match findLabelIdx patterns labels with
      | some p =>
        let nr := confidence < CONFIDENCE_THRESHOLD
        (⟨fieldName, true, confidence, some (trimStr p.2), nr⟩,
         ⟨some (Control.radioCtl (checkLabelsAt p.1 labels)),
          if nr then some (lowConfMsg confidence) else none, none⟩)
      | none => (unknownResult fieldName, ⟨none, none, some (noMatchMsg value)⟩)
  | _ => (noActionResult fieldName, emptyUpd)

/-- The core writer a mapping dispatches to. -/
def writerCore (m : FieldMapping) : FormGroup → FillResult × FormGroup :=
  match m.kind with
  | WriterKind.text af => textWriteCore m.fieldName m.value m.confidence af
  | WriterKind.dropdown => dropdownWriteCore m.fieldName m.value m.confidence
  | WriterKind.radio => radioWriteCore m.fieldName m.value m.confidence

/-- The abstract writer of a mapping. -/
def writerAbs (m : FieldMapping) : CtrlObs → FillResult × Upd :=
  match m.kind with
  | WriterKind.text af => textAbs m.fieldName m.value m.confidence af
  | WriterKind.dropdown => dropdownAbs m.fieldName m.value m.confidence
  | WriterKind.radio => radioAbs m.fieldName m.value m.confidence

/-! ## Document-level updates and their composition -/

def applyOU : Option Upd → FormGroup → FormGroup
  | none, g => g
  | some u, g => applyUpd u g

/-- Apply a positional list of optional updates to a document. -/
def applyDU : List (Option Upd) → List FormGroup → List FormGroup
  | [], d => d
  | _, [] => []
  | u :: us, g :: gs => applyOU u g :: applyDU us gs

/-- Sequential composition of updates (second applied after first). -/
def compU (b a : Upd) : Upd := ⟨oor b.ctrl a.ctrl, oor b.lcw a.lcw, oor b.ukw a.ukw⟩

def compOU : Option Upd → Option Upd → Option Upd
  | none, a => a
  | some u, none => some u
  | some u, some v => some (compU u v)

def compDU : List (Option Upd) → List (Option Upd) → List (Option Upd)
  | [], a => a
  | b :: bs, [] => b :: bs
  | b :: bs, a :: as => compOU b a :: compDU bs as

/-! ## The located-group step at the level of observations -/

/-- `groupMatches` reads only the label, hence factors through the
observation. -/
def groupMatchesObs (pat : List String) (o : String × CtrlObs) : Bool :=
  patTest pat (normalizeText o.1) || patTest pat o.1

/-- The result of `updateFirstMatch` as a function of the observation. -/
def ufmAbsR (pat : List String) (w : CtrlObs → FillResult × Upd) (nf : FillResult) :
    List (String × CtrlObs) → FillResult
  | [] => nf
  | o :: os => if groupMatchesObs pat o then (w o.2).1 else ufmAbsR pat w nf os

/-- The document update of `updateFirstMatch` as a function of the
observation. -/
def ufmAbsU (pat : List String) (w : CtrlObs → FillResult × Upd) :
    List (String × CtrlObs) → List (Option Upd)
  | [] => []
  | o :: os =>
    if groupMatchesObs pat o then some (w o.2).2 :: os.map (fun _ => none)
    else none :: ufmAbsU pat w os

/-! ## The whole pass at the level of observations, and idempotence -/

def mappingAbsR (m : FieldMapping) (os : List (String × CtrlObs)) : FillResult :=
  ufmAbsR m.labelPattern (writerAbs m) (noActionResult m.fieldName) os

def mappingAbsU (m : FieldMapping) (os : List (String × CtrlObs)) : List (Option Upd) :=
  ufmAbsU m.labelPattern (writerAbs m) os

/-- The result list of one pass as a function of the observation. -/
def passAbsR : List FieldMapping → List (String × CtrlObs) → List FillResult
  | [], _ => []
  | m :: ms, os => mappingAbsR m os :: passAbsR ms os

/-- The accumulated document update of one pass as a function of the
observation. -/
def passAbsU : List FieldMapping → List (String × CtrlObs) → List (Option Upd)
  | [], _ => []
  | m :: ms, os => compDU (passAbsU ms os) (mappingAbsU m os)

/-! ## Concrete scenarios -/

/-- The §8 scenario record (unlisted fields empty with zero confidence;
`total_amount` already stringified: `String(42.50)` is `"42.5"`). -/
def scenarioRecord : ParsedExpenseData :=
  ⟨⟨"", 0⟩, ⟨"", 0⟩, ⟨"", 0⟩, ⟨"out_of_pocket", mkRat 9 10⟩, ⟨"Acme", mkRat 19 20⟩,
   ⟨"", 0⟩, ⟨"42.5", mkRat 19 20⟩, ⟨"food", mkRat 9 10⟩, ⟨"", 0⟩,
   ⟨"Lunch for club meeting", mkRat 7 10⟩⟩

/-- An empty form carrying the six scenario fields. -/
def scenarioForm : List FormGroup :=
  [⟨"Vendor Name", Control.textInput "" false, none, none⟩,
   ⟨"Expense Amount", Control.textInput "" false, none, none⟩,
   ⟨"Purchase Type", Control.radioCtl
      [("Food", false), ("Apparel", false), ("Subscription", false), ("Other", false)],
      none, none⟩,
   ⟨"Payment Method", Control.radioCtl
      [("Club Spending Card (with additional funding)", false),
       ("Club Spending Card (without additional funding)", false),
       ("Out of pocket", false)],
      none, none⟩,
   ⟨"Include the link to the applicable NYU Engage event",
      Control.textInput "" false, none, none⟩,
   ⟨"In a few sentences, please describe the reason for the purchase",
      Control.textInput "" false, none, none⟩]

/-- The options of a select whose current selection was made by the user. -/
def clubOptions : List (String × String) :=
  [("Please select", "-1"), ("Chess Club", "123"), ("Debate Club", "456")]

/-- A form whose Club/Organization select already holds a user-made
selection (`Debate Club`, value `456`); nothing carries a provenance
marker. -/
def prefilledSelectForm : List FormGroup :=
  [⟨"Club/Organization", Control.selectCtl clubOptions "456", none, none⟩]

/-- The §8 choice-group scenario: a Payment Method radio group with the
three listed labels, nothing selected. -/
def paymentGroup : FormGroup :=
  ⟨"Payment Method", Control.radioCtl
      [("Club Spending Card (with additional funding)", false),
       ("(without additional funding)", false),
       ("Out of pocket", false)],
      none, none⟩

def paymentRadioForm : List FormGroup := [paymentGroup]

/-- A select with an empty current selection, for the single-select
scenarios. -/
def emptySelectForm : List FormGroup :=
  [⟨"Club/Organization", Control.selectCtl clubOptions "", none, none⟩]

/-- A field handler that always succeeds with a not-found result. -/
def okHandler (name : String) :
    List FormGroup → Except String (FillResult × List FormGroup) :=
  fun d => Except.ok (noActionResult name, d)

/-- A field handler that always throws. -/
def throwingHandler : List FormGroup → Except String (FillResult × List FormGroup) :=
  fun _ => Except.error "boom"

/-- A pending receipt. -/
def pendingReceipt : PendingFile := ⟨"receipt.pdf"⟩

/-- An upload area where the container and button are visible but no usable
file input exists, so `uploadPDFFile` takes the manual-fallback branch. -/
def manualFallbackDom : UploadDom :=
  ⟨true, true, true, true, false, false, false⟩

/-- Process state 500 ms after a user keystroke (inside the 5000 ms
cooldown), with a pending record and the budget untouched. -/
def cooldownState : RefillState :=
  ⟨some scenarioRecord, false, false, 0, 1000, 500, 0, none⟩

lemma findRadioIdx_labels (patterns : List (List String)) :
    ∀ rs : List (String × Bool),
      findRadioIdx patterns rs = findLabelIdx patterns (rs.map Prod.fst)
  | [] => rfl
  | (l, b) :: t => by
    simp only [findRadioIdx, findLabelIdx, List.map_cons]
    rw [findRadioIdx_labels patterns t]

lemma enumFrom_map_idx (i : Nat) :
    ∀ (n : Nat) (rs : List (String × Bool)),
      (List.enumFrom n rs).map (fun p => (p.2.1, p.1 == i)) =
        (List.enumFrom n (rs.map Prod.fst)).map (fun p => (p.2, p.1 == i))
  | _, [] => rfl
  | n, r :: t => by
    simp only [List.enumFrom, List.map_cons]
    rw [enumFrom_map_idx i (n + 1) t]

lemma checkRadioAt_labels (i : Nat) (rs : List (String × Bool)) :
    checkRadioAt i rs = checkLabelsAt i (rs.map Prod.fst) := by
  simp only [checkRadioAt, checkLabelsAt, List.enum]
  exact enumFrom_map_idx i 0 rs

lemma map_fst_isEmpty (rs : List (String × Bool)) :
    (rs.map Prod.fst).isEmpty = rs.isEmpty := by
  cases rs <;> rfl

/-- `textWriteCore` factors through the observation and an update. -/
lemma textWriteCore_abs (fn v : String) (c : ℚ) (af : Bool) (g : FormGroup) :
    textWriteCore fn v c af g =
      ((textAbs fn v c af (obsCtrl g.control)).1,
        applyUpd (textAbs fn v c af (obsCtrl g.control)).2 g) := by
  obtain ⟨lab, ctl, lcw, ukw⟩ := g
  cases ctl <;>
    simp only [textWriteCore, textAbs, obsCtrl, emptyUpd,
      markLowConfidenceField, markUnknownField]
  case textInput curVal auto =>
    split_ifs <;> simp [applyUpd, oor]
  all_goals simp [applyUpd, oor]

/-- `dropdownWriteCore` factors through the observation and an update. -/
lemma dropdownWriteCore_abs (fn v : String) (c : ℚ) (g : FormGroup) :
    dropdownWriteCore fn v c g =
      ((dropdownAbs fn v c (obsCtrl g.control)).1,
        applyUpd (dropdownAbs fn v c (obsCtrl g.control)).2 g) := by
  obtain ⟨lab, ctl, lcw, ukw⟩ := g
  cases ctl <;>
    simp only [dropdownWriteCore, dropdownAbs, obsCtrl, emptyUpd,
      markLowConfidenceField, markUnknownField]
  case selectCtl opts sel =>
    cases hf : opts.find? (optionMatches v)
    all_goals dsimp only
    all_goals split_ifs <;> simp [applyUpd, oor]
  all_goals simp [applyUpd, oor]

/-- `radioWriteCore` factors through the observation and an update. -/
lemma radioWriteCore_abs (fn v : String) (c : ℚ) (g : FormGroup) :
    radioWriteCore fn v c g =
      ((radioAbs fn v c (obsCtrl g.control)).1,
        applyUpd (radioAbs fn v c (obsCtrl g.control)).2 g) := by
  obtain ⟨lab, ctl, lcw, ukw⟩ := g
  cases ctl <;>
    simp only [radioWriteCore, radioAbs, obsCtrl, emptyUpd,
      markLowConfidenceField, markUnknownField]
  case radioCtl rs =>
    rw [map_fst_isEmpty, findRadioIdx_labels]
    cases hf : findLabelIdx
      (if (valueMappings fn v).isEmpty then [[v]] else valueMappings fn v)
      (rs.map Prod.fst)
    all_goals dsimp only
    all_goals try rw [← checkRadioAt_labels]
    all_goals split_ifs <;> simp [applyUpd, oor]
  all_goals simp [applyUpd, oor]

lemma writerCore_abs (m : FieldMapping) (g : FormGroup) :
    writerCore m g =
      ((writerAbs m (obsCtrl g.control)).1,
        applyUpd (writerAbs m (obsCtrl g.control)).2 g) := by
  obtain ⟨pat, fn, kind, val, conf⟩ := m
  cases kind <;>
    simp only [writerCore, writerAbs, textWriteCore_abs, dropdownWriteCore_abs,
      radioWriteCore_abs]

lemma applyUpd_label (u : Upd) (g : FormGroup) : (applyUpd u g).label = g.label := rfl

lemma enumFrom_map_fst (i : Nat) :
    ∀ (n : Nat) (ls : List String),
      ((List.enumFrom n ls).map (fun p => (p.2, p.1 == i))).map Prod.fst = ls
  | _, [] => rfl
  | n, l :: t => by
    simp only [List.enumFrom, List.map_cons]
    rw [enumFrom_map_fst i (n + 1) t]

/-- Checking a radio keeps the label list of the group. -/
lemma checkLabelsAt_fst (i : Nat) (labels : List String) :
    (checkLabelsAt i labels).map Prod.fst = labels := by
  simp only [checkLabelsAt, List.enum]
  exact enumFrom_map_fst i 0 labels

/-- Every write preserves the observation of the group it touches. -/
lemma writerAbs_obs (m : FieldMapping) (g : FormGroup) :
    obsCtrl (applyUpd (writerAbs m (obsCtrl g.control)).2 g).control =
      obsCtrl g.control := by
  obtain ⟨pat, fn, kind, val, conf⟩ := m
  obtain ⟨lab, ctl, lcw, ukw⟩ := g
  cases kind <;> cases ctl <;>
    simp only [writerAbs, textAbs, dropdownAbs, radioAbs, obsCtrl]
  case text.textInput af curVal auto =>
    split_ifs <;> simp_all [applyUpd, oor, obsCtrl, emptyUpd, collisionOf]
  case dropdown.selectCtl opts sel =>
    cases hf : opts.find? (optionMatches val)
    all_goals dsimp only
    all_goals split_ifs <;> simp [applyUpd, oor, obsCtrl, emptyUpd]
  case radio.radioCtl rs =>
    cases hf : findLabelIdx
      (if (valueMappings fn val).isEmpty then [[val]] else valueMappings fn val)
      (rs.map Prod.fst)
    all_goals dsimp only
    all_goals split_ifs <;>
      simp [applyUpd, oor, obsCtrl, emptyUpd, checkLabelsAt_fst]
  all_goals simp [applyUpd, oor, obsCtrl, emptyUpd]

lemma oor_self {α : Type _} (x : Option α) : oor x x = x := by cases x <;> rfl

lemma compU_self (u : Upd) : compU u u = u := by
  cases u; simp [compU, oor_self]

lemma compOU_self (u : Option Upd) : compOU u u = u := by
  cases u <;> simp [compOU, compU_self]

lemma compDU_self : ∀ us : List (Option Upd), compDU us us = us
  | [] => rfl
  | u :: t => by simp [compDU, compOU_self, compDU_self t]

lemma oor_assoc {α : Type _} (a b c : Option α) : oor (oor a b) c = oor a (oor b c) := by
  cases a <;> cases b <;> rfl

lemma applyUpd_comp (b a : Upd) (g : FormGroup) :
    applyUpd (compU b a) g = applyUpd b (applyUpd a g) := by
  cases b with
  | mk bc bl bu =>
    cases a with
    | mk ac al au =>
      cases bc <;> cases ac <;> simp [applyUpd, compU, oor_assoc] <;> rfl

lemma applyOU_comp (b a : Option Upd) (g : FormGroup) :
    applyOU (compOU b a) g = applyOU b (applyOU a g) := by
  cases b <;> cases a <;> simp [applyOU, compOU, applyUpd_comp]

lemma applyDU_comp : ∀ (b a : List (Option Upd)) (d : List FormGroup),
    applyDU (compDU b a) d = applyDU b (applyDU a d)
  | [], a, d => by simp [compDU, applyDU]
  | b :: bs, [], d => by simp [compDU, applyDU]
  | b :: bs, a :: as, [] => by simp [compDU, applyDU]
  | b :: bs, a :: as, g :: gs => by
    simp only [compDU, applyDU, applyOU_comp]
    rw [applyDU_comp bs as gs]

lemma applyDU_allNone {α : Type _} :
    ∀ (os : List α) (d : List FormGroup),
      applyDU (os.map (fun _ => (none : Option Upd))) d = d
  | [], d => by simp [applyDU]
  | _ :: t, [] => by simp [applyDU]
  | _ :: t, g :: gs => by
    simp only [List.map_cons, applyDU, applyOU]
    rw [applyDU_allNone t gs]

lemma map_none_obsG (t : List FormGroup) :
    (List.map obsG t).map (fun _ => (none : Option Upd)) =
      t.map (fun _ => (none : Option Upd)) := by
  induction t with
  | nil => rfl
  | cons g gs ih => simp_all

lemma groupMatches_obs (pat : List String) (g : FormGroup) :
    groupMatches pat g = groupMatchesObs pat (obsG g) := rfl

lemma updateFirstMatch_abs (pat : List String) (w : CtrlObs → FillResult × Upd)
    (nf : FillResult) (core : FormGroup → FillResult × FormGroup)
    (hcore : ∀ g, core g = ((w (obsCtrl g.control)).1, applyUpd (w (obsCtrl g.control)).2 g)) :
    ∀ doc : List FormGroup,
      updateFirstMatch pat core nf doc =
        (ufmAbsR pat w nf (obsDoc doc), applyDU (ufmAbsU pat w (obsDoc doc)) doc)
  | [] => rfl
  | g :: t => by
    have ih := updateFirstMatch_abs pat w nf core hcore t
    have hgm : groupMatches pat g = groupMatchesObs pat (obsG g) := rfl
    by_cases hm : groupMatchesObs pat (obsG g) = true
    · have hm' := hm
      simp only [obsG] at hm'
      simp only [updateFirstMatch, obsDoc, List.map_cons, ufmAbsR, ufmAbsU, hgm,
        hm, hm', if_true, hcore g, applyDU, applyOU, obsG, map_none_obsG]
      rw [applyDU_allNone]
    · simp only [Bool.not_eq_true] at hm
      have hm' := hm
      simp only [obsG] at hm'
      simp only [updateFirstMatch, obsDoc, List.map_cons, ufmAbsR, ufmAbsU, hgm,
        hm, hm', Bool.false_eq_true, if_false, applyDU, applyOU, obsG]
      simp only [obsDoc] at ih
      rw [ih]

lemma ufmAbsU_obs (pat : List String) (w : CtrlObs → FillResult × Upd)
    (hobs : ∀ g, obsCtrl (applyUpd (w (obsCtrl g.control)).2 g).control = obsCtrl g.control) :
    ∀ doc : List FormGroup,
      obsDoc (applyDU (ufmAbsU pat w (obsDoc doc)) doc) = obsDoc doc
  | [] => rfl
  | g :: t => by
    have ih := ufmAbsU_obs pat w hobs t
    by_cases hm : groupMatchesObs pat (obsG g) = true
    · have hm' := hm
      simp only [obsG] at hm'
      simp only [obsDoc, List.map_cons, ufmAbsU, hm, hm', if_true, applyDU,
        applyOU, obsG, map_none_obsG]
      rw [applyDU_allNone]
      have hg : obsG (applyUpd (w (obsCtrl g.control)).2 g) = obsG g := by
        simp only [obsG, applyUpd_label]
        rw [hobs g]
      simp only [obsG] at hg
      rw [hg]
    · simp only [Bool.not_eq_true] at hm
      have hm' := hm
      simp only [obsG] at hm'
      simp only [obsDoc, List.map_cons, ufmAbsU, hm, hm', Bool.false_eq_true,
        if_false, applyDU, applyOU, obsG]
      simp only [obsDoc] at ih
      rw [ih]

lemma runMapping_eq (m : FieldMapping) (doc : List FormGroup) :
    runMapping m doc =
      updateFirstMatch m.labelPattern (writerCore m) (noActionResult m.fieldName) doc := by
  obtain ⟨pat, fn, kind, val, conf⟩ := m
  cases kind <;> rfl

lemma runMapping_abs (m : FieldMapping) (doc : List FormGroup) :
    runMapping m doc =
      (mappingAbsR m (obsDoc doc), applyDU (mappingAbsU m (obsDoc doc)) doc) := by
  rw [runMapping_eq]
  exact updateFirstMatch_abs _ _ _ _ (writerCore_abs m) doc

lemma mappingAbsU_obs (m : FieldMapping) (doc : List FormGroup) :
    obsDoc (applyDU (mappingAbsU m (obsDoc doc)) doc) = obsDoc doc :=
  ufmAbsU_obs _ _ (writerAbs_obs m) doc

lemma passAbsU_obs : ∀ (ms : List FieldMapping) (doc : List FormGroup),
    obsDoc (applyDU (passAbsU ms (obsDoc doc)) doc) = obsDoc doc
  | [], doc => by simp [passAbsU, applyDU]
  | m :: ms, doc => by
    simp only [passAbsU]
    rw [applyDU_comp]
    have h1 := mappingAbsU_obs m doc
    have h2 := passAbsU_obs ms (applyDU (mappingAbsU m (obsDoc doc)) doc)
    rw [h1] at h2
    rw [h2]

lemma runMappings_abs : ∀ (ms : List FieldMapping) (doc : List FormGroup),
    runMappings ms doc =
      (passAbsR ms (obsDoc doc), applyDU (passAbsU ms (obsDoc doc)) doc)
  | [], doc => by simp [runMappings, passAbsR, passAbsU, applyDU]
  | m :: ms, doc => by
    simp only [runMappings, passAbsR, passAbsU]
    rw [runMapping_abs m doc]
    dsimp only
    have ih := runMappings_abs ms (applyDU (mappingAbsU m (obsDoc doc)) doc)
    rw [mappingAbsU_obs m doc] at ih
    rw [ih, applyDU_comp]

lemma runFieldHandlers_ok : ∀ (ms : List FieldMapping) (doc : List FormGroup),
    runFieldHandlers (ms.map (fun m => fun d => Except.ok (runMapping m d))) doc =
      runMappings ms doc
  | [], _ => rfl
  | m :: ms, doc => by
    simp only [List.map_cons, runFieldHandlers, runMappings]
    rw [runFieldHandlers_ok ms (runMapping m doc).2]

/-- A second pass over the document a first pass produced returns the same
results and the same document. -/
lemma runMappings_idem (ms : List FieldMapping) (doc : List FormGroup) :
    runMappings ms (runMappings ms doc).2 = runMappings ms doc := by
  have h1 := runMappings_abs ms doc
  have hsnd : (runMappings ms doc).2 = applyDU (passAbsU ms (obsDoc doc)) doc := by
    rw [h1]
  have hobs : obsDoc (runMappings ms doc).2 = obsDoc doc := by
    rw [hsnd]
    exact passAbsU_obs ms doc
  have h2 := runMappings_abs ms (runMappings ms doc).2
  rw [hobs] at h2
  rw [h2, hsnd, ← applyDU_comp, compDU_self, h1]

/-! ## Locator split and policy helper lemmas -/

/-- `updateFirstMatch` on a document whose first matching group is `g`. -/
lemma updateFirstMatch_split (pat : List String)
    (f : FormGroup → FillResult × FormGroup) (nf : FillResult) :
    ∀ (pre : List FormGroup) (g : FormGroup) (post : List FormGroup),
      (∀ g' ∈ pre, groupMatches pat g' = false) → groupMatches pat g = true →
      updateFirstMatch pat f nf (pre ++ g :: post) = ((f g).1, pre ++ (f g).2 :: post)
  | [], g, post, _, hg => by simp [updateFirstMatch, hg]
  | p :: pre, g, post, hpre, hg => by
    have hp : groupMatches pat p = false := hpre p (by simp)
    simp only [List.cons_append, updateFirstMatch, hp, Bool.false_eq_true, if_false,
      List.append_eq]
    rw [updateFirstMatch_split pat f nf pre g post
      (fun g' hg' => hpre g' (by simp [hg'])) hg]

/-- `isUnknownValue` in the claim's vocabulary: the value is empty (up to
whitespace), an unknown marker, or the confidence is below the unknown
threshold. -/
lemma isUnknownValue_iff (value : String) (conf : ℚ) :
    isUnknownValue value conf = true ↔
      (value = "" ∨ trimStr value = "" ∨
        isMarkerStr (trimStr (lowerStr value)) = true ∨ conf < UNKNOWN_THRESHOLD) := by
  unfold isUnknownValue
  split_ifs with h1 h2 h3 <;> simp_all
  tauto

/-- The `Array.some` short-circuit caps the side-effect counter at one. -/
lemma someCountEmpty_le_one (fg : Option Nat) :
    ∀ (i : Nat) (gs : List FormGroup), (someCountEmpty fg i gs).2 ≤ 1
  | _, [] => by simp [someCountEmpty]
  | i, g :: t => by
    simp only [someCountEmpty]
    split_ifs
    · simp
    · exact someCountEmpty_le_one fg (i + 1) t

/-- A handler that throws contributes nothing: the loop behaves as if the
entry were absent. -/
lemma runFieldHandlers_skip_error
    (e : List FormGroup → Except String (FillResult × List FormGroup))
    (he : ∀ d, ∃ msg, e d = Except.error msg) :
    ∀ (pre post : List (List FormGroup → Except String (FillResult × List FormGroup)))
      (doc : List FormGroup),
      runFieldHandlers (pre ++ e :: post) doc = runFieldHandlers (pre ++ post) doc
  | [], post, doc => by
    obtain ⟨msg, hm⟩ := he doc
    simp only [List.nil_append, runFieldHandlers, hm]
  | h :: pre, post, doc => by
    simp only [List.cons_append, runFieldHandlers, List.append_eq]
    cases hh : h doc with
    | ok r =>
      dsimp only
      rw [runFieldHandlers_skip_error e he pre post r.2]
    | error msg =>
      exact runFieldHandlers_skip_error e he pre post doc

/-! ## Claim C1 (non-destructiveness) -/

/-- Claim C1, counterexample: the single-select writer has no
pre-existing-value check.  On a select already holding the user-made
selection `456` (no provenance marker exists for selects), the writer
reports `filled = true` and overwrites the selection with `123`. -/
theorem dropdown_overwrites_user_selection :
    (fillDropdownByPattern ["club/organization"] "Club/Organization" "Chess Club"
        (mkRat 9 10) prefilledSelectForm).1.filled = true ∧
    (fillDropdownByPattern ["club/organization"] "Club/Organization" "Chess Club"
        (mkRat 9 10) prefilledSelectForm).2 =
      [⟨"Club/Organization", Control.selectCtl clubOptions "123", none, none⟩] := by
  decide

/-- Claim C1, amended: non-destructiveness holds for the text writer.
When the first group matching the pattern holds a text input with a
non-blank value and no `data-autofilled` provenance marker, and the
incoming value is one the writer would otherwise write (it passes the
always-fill gate or the unknown-value gate), `fillTextFieldByPattern`
leaves the document unchanged and returns `filled = false`,
`needsReview = false`.  The select and radio-group writers perform no such
check (see the counterexample). -/
theorem text_writer_nondestructive (pat : List String) (fieldName value : String)
    (confidence : ℚ) (alwaysFill : Bool) (pre post : List FormGroup)
    (g : FormGroup) (curVal : String)
    (hpre : ∀ g' ∈ pre, groupMatches pat g' = false)
    (hg : groupMatches pat g = true)
    (hctl : g.control = Control.textInput curVal false)
    (hcur : trimStr curVal ≠ "")
    (hval : (alwaysFill && !(value == "") && !(trimStr value == "") &&
              !(isMarkerStr (trimStr (lowerStr value)))) = true ∨
            isUnknownValue value confidence = false) :
    fillTextFieldByPattern pat fieldName value confidence alwaysFill
        (pre ++ g :: post) =
      (noActionResult fieldName, pre ++ g :: post) := by
  have hcv : curVal ≠ "" := fun h => hcur (by rw [h]; rfl)
  have hcol : collisionOf curVal false = true := by
    simp [collisionOf, hcv, hcur]
  rw [fillTextFieldByPattern, updateFirstMatch_split pat _ _ pre g post hpre hg]
  have hfg : textWriteCore fieldName value confidence alwaysFill g =
      (noActionResult fieldName, g) := by
    rcases hval with hv | hv
    · simp [textWriteCore, hctl, hv, hcol]
    · by_cases hb : (alwaysFill && !(value == "") && !(trimStr value == "") &&
          !(isMarkerStr (trimStr (lowerStr value)))) = true
      · simp [textWriteCore, hctl, hb, hcol]
      · have hb' : (alwaysFill && !(value == "") && !(trimStr value == "") &&
            !(isMarkerStr (trimStr (lowerStr value)))) = false :=
          Bool.eq_false_iff.mpr hb
        simp [textWriteCore, hctl, hb', hv, hcol]
  rw [hfg]

/-- Witness for the amended C1 theorem at a concrete input: a Vendor Name
field already holding `Other Co.` is left untouched. -/
theorem text_writer_nondestructive_witness :
    fillTextFieldByPattern ["vendor name"] "Vendor Name" "Acme" (mkRat 19 20) false
        [⟨"Vendor Name", Control.textInput "Other Co." false, none, none⟩] =
      (noActionResult "Vendor Name",
        [⟨"Vendor Name", Control.textInput "Other Co." false, none, none⟩]) :=
  text_writer_nondestructive ["vendor name"] "Vendor Name" "Acme" (mkRat 19 20) false
    [] [] ⟨"Vendor Name", Control.textInput "Other Co." false, none, none⟩
    "Other Co." (by intro g' hg'; simp at hg') (by decide) rfl (by decide)
    (Or.inr (by decide))

/-! ## Claim C2 (idempotence of a second pass) -/

/-- Claim C2, counterexample: the Vendor Name field is filled (and
provenance-marked) by the first pass, yet the second pass reports it
`filled = true` again — the collision check is skipped precisely because
the `data-autofilled` marker is present, so the writer re-writes the same
value instead of reporting `filled = false`. -/
theorem second_pass_reports_filled_true :
    ((fillExpenseForm scenarioRecord scenarioForm).1.results.any
        (fun r => r.fieldName == "Vendor Name" && r.filled)) = true ∧
    ((fillExpenseForm scenarioRecord
          (fillExpenseForm scenarioRecord scenarioForm).2).1.results.any
        (fun r => r.fieldName == "Vendor Name" && r.filled)) = true := by
  decide

/-- Claim C2, amended: running `fillExpenseForm` twice with the same record
and no user edits in between yields the identical `FillSummary` on the
second call and leaves every field's content unchanged — provenance-marked
fields are re-filled with the same value and reported `filled = true`
again, not `filled = false`. -/
theorem fill_pass_idempotent (data : ParsedExpenseData) (doc : List FormGroup) :
    fillExpenseForm data (fillExpenseForm data doc).2 = fillExpenseForm data doc := by
  simp only [fillExpenseForm, runFieldHandlers_ok]
  rw [runMappings_idem]

/-! ## Claim C3 (confidence thresholding) -/

/-- Claim C3: on an empty located text input (default, non-always-fill
path), confidence at least 0.8 gives `needsReview = false` on success;
confidence in `[0.5, 0.8)` gives `needsReview = true`; and confidence below
0.5, or an empty or unknown-marker value, gives `filled = false`,
`needsReview = true` with the group annotated unknown. -/
theorem confidence_thresholding (pat : List String) (fieldName value : String)
    (confidence : ℚ) (pre post : List FormGroup) (g : FormGroup) (auto : Bool)
    (hpre : ∀ g' ∈ pre, groupMatches pat g' = false)
    (hg : groupMatches pat g = true)
    (hctl : g.control = Control.textInput "" auto) :
    (CONFIDENCE_THRESHOLD ≤ confidence →
      (fillTextFieldByPattern pat fieldName value confidence false
          (pre ++ g :: post)).1.filled = true →
      (fillTextFieldByPattern pat fieldName value confidence false
          (pre ++ g :: post)).1.needsReview = false) ∧
    (UNKNOWN_THRESHOLD ≤ confidence → confidence < CONFIDENCE_THRESHOLD →
      (fillTextFieldByPattern pat fieldName value confidence false
          (pre ++ g :: post)).1.needsReview = true) ∧
    ((confidence < UNKNOWN_THRESHOLD ∨ value = "" ∨ trimStr value = "" ∨
        isMarkerStr (trimStr (lowerStr value)) = true) →
      (fillTextFieldByPattern pat fieldName value confidence false
          (pre ++ g :: post)).1.filled = false ∧
      (fillTextFieldByPattern pat fieldName value confidence false
          (pre ++ g :: post)).1.needsReview = true ∧
      (fillTextFieldByPattern pat fieldName value confidence false
          (pre ++ g :: post)).2 =
        pre ++ markUnknownField g textUnknownMsg :: post) := by
  have hsplit : fillTextFieldByPattern pat fieldName value confidence false
      (pre ++ g :: post) =
      ((textWriteCore fieldName value confidence false g).1,
        pre ++ (textWriteCore fieldName value confidence false g).2 :: post) := by
    rw [fillTextFieldByPattern, updateFirstMatch_split pat _ _ pre g post hpre hg]
  by_cases hu : isUnknownValue value confidence = true
  · have hcore : textWriteCore fieldName value confidence false g =
        (unknownResult fieldName, markUnknownField g textUnknownMsg) := by
      simp [textWriteCore, hctl, hu]
    rw [hsplit, hcore]
    refine ⟨?_, ?_, ?_⟩
    · intro _ hfill
      simp [unknownResult] at hfill
    · intro _ _
      rfl
    · intro _
      exact ⟨rfl, rfl, rfl⟩
  · have hu' : isUnknownValue value confidence = false := Bool.eq_false_iff.mpr hu
    have hcol : collisionOf "" auto = false := by simp [collisionOf]
    have hcore : textWriteCore fieldName value confidence false g =
        (⟨fieldName, true, confidence, some value,
            decide (confidence < CONFIDENCE_THRESHOLD)⟩,
          if confidence < CONFIDENCE_THRESHOLD then
            markLowConfidenceField { g with control := Control.textInput value true }
              (lowConfMsg confidence)
          else { g with control := Control.textInput value true }) := by
      simp [textWriteCore, hctl, hu', hcol]
    rw [hsplit, hcore]
    refine ⟨?_, ?_, ?_⟩
    · intro hconf _
      exact decide_eq_false (not_lt.2 hconf)
    · intro _ hlt
      exact decide_eq_true hlt
    · intro h3
      exfalso
      have habs : isUnknownValue value confidence = true :=
        (isUnknownValue_iff value confidence).2 (by tauto)
      rw [hu'] at habs
      exact Bool.false_ne_true habs

/-- Witness for the C3 theorem: an unknown marker with high confidence is
not written; the field is annotated unknown. -/
theorem confidence_thresholding_witness :
    (fillTextFieldByPattern ["vendor name"] "Vendor Name" "n/a" (mkRat 9 10) false
        [⟨"Vendor Name", Control.textInput "" false, none, none⟩]).1.filled = false ∧
    (fillTextFieldByPattern ["vendor name"] "Vendor Name" "n/a" (mkRat 9 10) false
        [⟨"Vendor Name", Control.textInput "" false, none, none⟩]).1.needsReview = true ∧
    (fillTextFieldByPattern ["vendor name"] "Vendor Name" "n/a" (mkRat 9 10) false
        [⟨"Vendor Name", Control.textInput "" false, none, none⟩]).2 =
      [markUnknownField ⟨"Vendor Name", Control.textInput "" false, none, none⟩
        textUnknownMsg] :=
  (confidence_thresholding ["vendor name"] "Vendor Name" "n/a" (mkRat 9 10) [] []
    ⟨"Vendor Name", Control.textInput "" false, none, none⟩ false
    (by intro g' hg'; simp at hg') (by decide) rfl).2.2
    (Or.inr (Or.inr (Or.inr (by decide))))

/-! ## Claim C4 (the §8 scenario) -/

/-- Claim C4, counterexample: the event_link FillResult has
`needsReview = true` (the unknown path always sets it), so a field other
than description needs review, contrary to the claim. -/
theorem event_link_needs_review :
    ((fillExpenseForm scenarioRecord scenarioForm).1.results.any
        (fun r => r.fieldName == "Event Link" && !r.filled && r.needsReview)) = true := by
  decide

/-- Claim C4, amended: on the scenario record against the empty form the
summary reports exactly 5 fields filled (payment, vendor, amount, type,
description), description is flagged for review, event_link is unfilled
and annotated unknown, and the fields needing review are exactly
event_link and description (`lowConfidenceFields = 2`). -/
theorem scenario_fill_summary :
    (fillExpenseForm scenarioRecord scenarioForm).1.filledFields = 5 ∧
    (((fillExpenseForm scenarioRecord scenarioForm).1.results.filter
        (fun r => r.filled)).map (fun r => r.fieldName)) =
      ["Payment Method", "Vendor Name", "Expense Amount", "Purchase Type",
       "Description"] ∧
    (((fillExpenseForm scenarioRecord scenarioForm).1.results.filter
        (fun r => r.needsReview)).map (fun r => r.fieldName)) =
      ["Event Link", "Description"] ∧
    (fillExpenseForm scenarioRecord scenarioForm).1.lowConfidenceFields = 2 ∧
    ((fillExpenseForm scenarioRecord scenarioForm).2.map
        (fun g => g.unknownWarning)) =
      [none, none, none, none, some textUnknownMsg, none] := by
  decide

/-! ## Claim C5 (per-field fault isolation) -/

/-- Claim C5, counterexample: with a throwing middle handler, the remaining
handlers still run but the failing field contributes no FillResult at all —
only the two surviving fields appear, and no NotFound result is produced
for the failing one. -/
theorem thrown_field_has_no_result :
    ((runFieldHandlers
        [okHandler "Purchaser Name", throwingHandler, okHandler "NetID"] []).1.map
        (fun r => r.fieldName)) = ["Purchaser Name", "NetID"] := by
  decide

/-- Claim C5, amended: an exception from one field handler is caught and
the remaining fields are still processed, but the failing field contributes
no FillResult — the loop behaves exactly as if the entry were absent,
rather than degrading it to a NotFound result. -/
theorem exception_isolated_no_result
    (pre post : List (List FormGroup → Except String (FillResult × List FormGroup)))
    (e : List FormGroup → Except String (FillResult × List FormGroup))
    (doc : List FormGroup)
    (he : ∀ d, ∃ msg, e d = Except.error msg) :
    runFieldHandlers (pre ++ e :: post) doc = runFieldHandlers (pre ++ post) doc :=
  runFieldHandlers_skip_error e he pre post doc

/-- Witness for the amended C5 theorem at a concrete handler list. -/
theorem exception_isolated_no_result_witness :
    runFieldHandlers [okHandler "Purchaser Name", throwingHandler] [] =
      runFieldHandlers [okHandler "Purchaser Name"] [] :=
  exception_isolated_no_result [okHandler "Purchaser Name"] [] throwingHandler []
    (fun _ => ⟨"boom", rfl⟩)

/-! ## Claim C6 (pending-attachment lifecycle) -/

/-- Claim C6, counterexample: when the upload attempt falls back to the
manual-upload banner (no usable file input), the pending attachment does
not survive — `checkAndUploadPendingFile` already cleared it before the
attempt. -/
theorem manual_fallback_consumes_pending :
    (checkAndUploadPendingFile (some pendingReceipt) manualFallbackDom).2.2 = none ∧
    (checkAndUploadPendingFile (some pendingReceipt)
        manualFallbackDom).2.1.manualMessageShown = true := by
  decide

/-- Claim C6, amended: `checkAndUploadPendingFile` clears the pending
attachment the moment an attempt proceeds (container and button present
and visible), regardless of the attempt's outcome; `uploadPDFFile` itself
clears the slot only in its success branch and leaves it alone on the
manual fallback. -/
theorem pending_cleared_on_attempt (f : PendingFile) (dom : UploadDom)
    (hc : dom.containerPresent = true) (hb : dom.buttonPresent = true)
    (hv : dom.containerVisible = true) :
    (checkAndUploadPendingFile (some f) dom).1 = true ∧
    (checkAndUploadPendingFile (some f) dom).2.2 = none ∧
    (∀ p, dom.answerIdPresent = true → dom.fileInputPresent = true →
        dom.hostProcessesFile = true → (uploadPDFFile dom p).2 = none) ∧
    (∀ p, dom.answerIdPresent = true → dom.fileInputPresent = false →
        (uploadPDFFile dom p).2 = p ∧
        (uploadPDFFile dom p).1.manualMessageShown = true) := by
  obtain ⟨c, v, b, a, fi, hp, mm⟩ := dom
  simp only at hc hb hv
  subst hc
  subst hb
  subst hv
  refine ⟨by simp [checkAndUploadPendingFile], ?_, ?_, ?_⟩
  · cases a <;> cases fi <;> cases hp <;>
      simp [checkAndUploadPendingFile, uploadPDFFile]
  · intro p ha hfi hhp
    simp only at ha hfi hhp
    subst ha
    subst hfi
    subst hhp
    simp [uploadPDFFile]
  · intro p ha hfi
    simp only at ha hfi
    subst ha
    subst hfi
    simp [uploadPDFFile]

/-- Witness for the amended C6 theorem at the manual-fallback DOM. -/
theorem pending_cleared_on_attempt_witness :
    (checkAndUploadPendingFile (some pendingReceipt) manualFallbackDom).1 = true ∧
    (checkAndUploadPendingFile (some pendingReceipt) manualFallbackDom).2.2 = none :=
  ⟨(pending_cleared_on_attempt pendingReceipt manualFallbackDom rfl rfl rfl).1,
   (pending_cleared_on_attempt pendingReceipt manualFallbackDom rfl rfl rfl).2.1⟩

/-! ## Claim C7 (cooldown on refills) -/

/-- No call to `checkAndRefillOnNewPage` — forced or not — ever invokes a
refill or changes the document: the `Array.some` short-circuit caps the
empty-field count at 1, which never exceeds the `> 3` threshold. -/
lemma checkAndRefill_no_fill (force : Bool) (st : RefillState)
    (doc : List FormGroup) :
    (checkAndRefillOnNewPage force st doc).1 = false ∧
    (checkAndRefillOnNewPage force st doc).2.2 = doc := by
  have hle := someCountEmpty_le_one st.focusedGroup 0 (doc.take 10)
  have hcond : ((someCountEmpty st.focusedGroup 0 (doc.take 10)).1 &&
      decide (3 < (someCountEmpty st.focusedGroup 0 (doc.take 10)).2)) = false := by
    have h3 : ¬(3 < (someCountEmpty st.focusedGroup 0 (doc.take 10)).2) := by omega
    simp [h3]
  unfold checkAndRefillOnNewPage
  simp only [hcond]
  split_ifs <;> simp_all

/-- Claim C7: any refill attempt — including a forced, navigation-triggered
one — within the user-interaction cooldown is skipped and changes no field
value.  (It holds for every attempt: forced attempts bypass the cooldown
guard itself but are stopped by the empty-field check, whose counter the
`Array.some` short-circuit caps at 1.) -/
theorem forced_refill_skipped_within_cooldown (force : Bool) (st : RefillState)
    (doc : List FormGroup) (_h : st.now - st.lastUserInteraction < 5000) :
    (checkAndRefillOnNewPage force st doc).1 = false ∧
    (checkAndRefillOnNewPage force st doc).2.2 = doc :=
  checkAndRefill_no_fill force st doc

/-- Witness for the C7 theorem: a forced attempt 500 ms after a keystroke. -/
theorem forced_refill_skipped_within_cooldown_witness :
    (checkAndRefillOnNewPage true cooldownState scenarioForm).1 = false ∧
    (checkAndRefillOnNewPage true cooldownState scenarioForm).2.2 = scenarioForm :=
  forced_refill_skipped_within_cooldown true cooldownState scenarioForm (by decide)

/-! ## Claim C8 (single-select matching) -/

/-- Claim C8, counterexample: with confidence 0.3 the unknown-value gate
runs before option matching, so the writer selects nothing even though a
non-sentinel option satisfies bidirectional containment — and the
annotation carries the could-not-be-determined message, not the
could-not-find-matching-option one. -/
theorem gate_blocks_matching_selection :
    (fillDropdownByPattern ["club/organization"] "Club/Organization" "Chess"
        (mkRat 3 10) emptySelectForm).1.filled = false ∧
    ((fillDropdownByPattern ["club/organization"] "Club/Organization" "Chess"
        (mkRat 3 10) emptySelectForm).2.map (fun g => g.unknownWarning)) =
      [some selectUnknownMsg] ∧
    optionMatches "Chess" ("Chess Club", "123") = true ∧
    ("123" : String) ≠ "-1" := by
  decide

/-- Claim C8, amended: for a located select and a value passing the
unknown-value gate, the writer selects an option iff the first option
satisfying bidirectional case-insensitive containment exists and its value
is not the `-1` sentinel; on selection it writes that option's value and
flags low confidence, and otherwise it annotates unknown with the
could-not-find-matching-option message and returns `filled = false`,
`needsReview = true`. -/
theorem single_select_matching (pat : List String) (fieldName value : String)
    (confidence : ℚ) (pre post : List FormGroup) (g : FormGroup)
    (options : List (String × String)) (sel : String)
    (hpre : ∀ g' ∈ pre, groupMatches pat g' = false)
    (hg : groupMatches pat g = true)
    (hctl : g.control = Control.selectCtl options sel)
    (hunk : isUnknownValue value confidence = false) :
    ((fillDropdownByPattern pat fieldName value confidence
        (pre ++ g :: post)).1.filled = true ↔
      ∃ t v, options.find? (optionMatches value) = some (t, v) ∧ v ≠ "-1") ∧
    (∀ t v, options.find? (optionMatches value) = some (t, v) → v ≠ "-1" →
      fillDropdownByPattern pat fieldName value confidence (pre ++ g :: post) =
        (⟨fieldName, true, confidence, some (if t == "" then value else t),
            decide (confidence < CONFIDENCE_THRESHOLD)⟩,
          pre ++ (if confidence < CONFIDENCE_THRESHOLD then
              markLowConfidenceField
                { g with control := Control.selectCtl options v }
                (lowConfMsg confidence)
            else { g with control := Control.selectCtl options v }) :: post)) ∧
    ((options.find? (optionMatches value) = none ∨
        ∃ t, options.find? (optionMatches value) = some (t, "-1")) →
      fillDropdownByPattern pat fieldName value confidence (pre ++ g :: post) =
        (unknownResult fieldName,
          pre ++ markUnknownField g (noMatchMsg value) :: post)) := by
  have hsplit : fillDropdownByPattern pat fieldName value confidence
      (pre ++ g :: post) =
      ((dropdownWriteCore fieldName value confidence g).1,
        pre ++ (dropdownWriteCore fieldName value confidence g).2 :: post) := by
    rw [fillDropdownByPattern, updateFirstMatch_split pat _ _ pre g post hpre hg]
  cases hf : options.find? (optionMatches value) with
  | none =>
    have hcore : dropdownWriteCore fieldName value confidence g =
        (unknownResult fieldName, markUnknownField g (noMatchMsg value)) := by
      simp [dropdownWriteCore, hctl, hunk, hf]
    refine ⟨?_, ?_, ?_⟩
    · rw [hsplit, hcore]
      constructor
      · intro hfill
        simp [unknownResult] at hfill
      · rintro ⟨t, v, hfv, -⟩
        simp at hfv
    · intro t v hfv
      simp at hfv
    · intro _
      rw [hsplit, hcore]
  | some opt =>
    obtain ⟨t0, v0⟩ := opt
    by_cases hv : v0 = "-1"
    · subst hv
      have hcore : dropdownWriteCore fieldName value confidence g =
          (unknownResult fieldName, markUnknownField g (noMatchMsg value)) := by
        simp [dropdownWriteCore, hctl, hunk, hf]
      refine ⟨?_, ?_, ?_⟩
      · rw [hsplit, hcore]
        constructor
        · intro hfill
          simp [unknownResult] at hfill
        · rintro ⟨t, v, hfv, hne⟩
          rw [Option.some_inj] at hfv
          exact absurd (congrArg Prod.snd hfv).symm hne
      · intro t v hfv hne
        rw [Option.some_inj] at hfv
        exact absurd (congrArg Prod.snd hfv).symm hne
      · intro _
        rw [hsplit, hcore]
    · have hv' : (v0 == "-1") = false := beq_eq_false_iff_ne.mpr hv
      have hcore : dropdownWriteCore fieldName value confidence g =
          (⟨fieldName, true, confidence, some (if t0 == "" then value else t0),
              decide (confidence < CONFIDENCE_THRESHOLD)⟩,
            if confidence < CONFIDENCE_THRESHOLD then
              markLowConfidenceField
                { g with control := Control.selectCtl options v0 }
                (lowConfMsg confidence)
            else { g with control := Control.selectCtl options v0 }) := by
        simp [dropdownWriteCore, hctl, hunk, hf, hv']
      refine ⟨?_, ?_, ?_⟩
      · rw [hsplit, hcore]
        constructor
        · intro _
          exact ⟨t0, v0, rfl, hv⟩
        · intro _
          rfl
      · intro t v hfv hne
        rw [Option.some_inj, Prod.mk.injEq] at hfv
        obtain ⟨ht, hvv⟩ := hfv
        subst ht
        subst hvv
        rw [hsplit, hcore]
      · rintro (hnone | ⟨t, hsent⟩)
        · simp at hnone
        · rw [Option.some_inj] at hsent
          exact absurd (congrArg Prod.snd hsent) hv

/-- Witness for the amended C8 theorem: `Chess Club` at confidence 0.9
selects the matching non-sentinel option. -/
theorem single_select_matching_witness :
    (fillDropdownByPattern ["club/organization"] "Club/Organization" "Chess Club"
        (mkRat 9 10) emptySelectForm).1.filled = true :=
  ((single_select_matching ["club/organization"] "Club/Organization" "Chess Club"
      (mkRat 9 10) [] []
      ⟨"Club/Organization", Control.selectCtl clubOptions "", none, none⟩
      clubOptions "" (by intro g' hg'; simp at hg') (by decide) rfl (by decide)).1).mpr
    ⟨"Chess Club", "123", by decide, by decide⟩

/-! ## Claim C9 (choice-group value mapping) -/

/-- Claim C9: for `club_card_with_extra` against the scenario radio group
(and any confidence passing the unknown gate), the writer checks the first
radio, whose label is `Club Spending Card (with additional funding)`, and
reports it filled with that label as the written value. -/
theorem radio_value_mapping_scenario (confidence : ℚ)
    (h : UNKNOWN_THRESHOLD ≤ confidence) :
    (fillRadioGroupByPattern ["payment method"] "Payment Method"
        "club_card_with_extra" confidence paymentRadioForm).1.filled = true ∧
    (fillRadioGroupByPattern ["payment method"] "Payment Method"
        "club_card_with_extra" confidence paymentRadioForm).1.value =
      some "Club Spending Card (with additional funding)" ∧
    ((fillRadioGroupByPattern ["payment method"] "Payment Method"
        "club_card_with_extra" confidence paymentRadioForm).2.map
        (fun g => g.control)) =
      [Control.radioCtl
        [("Club Spending Card (with additional funding)", true),
         ("(without additional funding)", false), ("Out of pocket", false)]] := by
  have hm : groupMatches ["payment method"] paymentGroup = true := by decide
  have hunk : isUnknownValue "club_card_with_extra" confidence = false := by
    simp [isUnknownValue, not_lt.2 h]
    all_goals decide
  have hsplit : fillRadioGroupByPattern ["payment method"] "Payment Method"
      "club_card_with_extra" confidence paymentRadioForm =
      ((radioWriteCore "Payment Method" "club_card_with_extra" confidence
          paymentGroup).1,
        [(radioWriteCore "Payment Method" "club_card_with_extra" confidence
          paymentGroup).2]) := by
    rw [fillRadioGroupByPattern]
    exact updateFirstMatch_split _ _ _ [] paymentGroup [] (by simp) hm
  have hvm : valueMappings "Payment Method" "club_card_with_extra" =
      [["club spending card", "with", "additional funding"],
       ["club spending card", "with", "extra"]] := by decide
  have hfind : findRadioIdx
      [["club spending card", "with", "additional funding"],
       ["club spending card", "with", "extra"]]
      [("Club Spending Card (with additional funding)", false),
       ("(without additional funding)", false), ("Out of pocket", false)] =
      some (0, "Club Spending Card (with additional funding)") := by decide
  have hcore : radioWriteCore "Payment Method" "club_card_with_extra" confidence
      paymentGroup =
      (⟨"Payment Method", true, confidence,
          some (trimStr "Club Spending Card (with additional funding)"),
          decide (confidence < CONFIDENCE_THRESHOLD)⟩,
        if confidence < CONFIDENCE_THRESHOLD then
          markLowConfidenceField
            { paymentGroup with control := Control.radioCtl (checkRadioAt 0
                [("Club Spending Card (with additional funding)", false),
                 ("(without additional funding)", false), ("Out of pocket", false)]) }
            (lowConfMsg confidence)
        else { paymentGroup with control := Control.radioCtl (checkRadioAt 0
            [("Club Spending Card (with additional funding)", false),
             ("(without additional funding)", false), ("Out of pocket", false)]) }) := by
    simp [radioWriteCore, paymentGroup, hunk, hvm, hfind]
  rw [hsplit, hcore]
  refine ⟨rfl, ?_, ?_⟩
  · show some (trimStr "Club Spending Card (with additional funding)") =
      some "Club Spending Card (with additional funding)"
    decide
  · split_ifs <;> simp [markLowConfidenceField, paymentGroup] <;> decide

/-- Witness for the C9 theorem at confidence 0.9. -/
theorem radio_value_mapping_scenario_witness :
    (fillRadioGroupByPattern ["payment method"] "Payment Method"
        "club_card_with_extra" (mkRat 9 10) paymentRadioForm).1.filled = true :=
  (radio_value_mapping_scenario (mkRat 9 10) (by decide)).1

/-! ## Claim C10 (date normalisation) -/

/-- Claim C10: the Date of Expense handler writes `formatDate` of the raw
record value, never the raw value itself; `formatDate` returns an input
already in `MM/DD/YYYY` shape unchanged, reformats a parseable date to
zero-padded `MM/DD/YYYY`, and otherwise (including the empty string)
returns the input unchanged. -/
theorem date_normalisation :
    (∀ s : String, matchesMMDDYYYY s = true → formatDate s = s) ∧
    (∀ (s : String) (m d y : Nat), s ≠ "" → matchesMMDDYYYY s = false →
        parseISODate s = some (m, d, y) →
        formatDate s = pad2 m ++ "/" ++ pad2 d ++ "/" ++ toString y) ∧
    (∀ s : String, s ≠ "" → matchesMMDDYYYY s = false → parseISODate s = none →
        formatDate s = s) ∧
    formatDate "" = "" ∧
    (∀ data : ParsedExpenseData, ∃ fm ∈ fieldMappings data,
        fm.fieldName = "Date of Expense" ∧
        fm.value = formatDate data.date_of_expense.value) := by
  refine ⟨?_, ?_, ?_, rfl, ?_⟩
  · intro s hs
    by_cases hz : s = ""
    · subst hz
      exact absurd hs (by decide)
    · simp [formatDate, beq_eq_false_iff_ne.mpr hz, hs]
  · intro s m d y hz hshape hp
    simp [formatDate, beq_eq_false_iff_ne.mpr hz, hshape, hp]
  · intro s hz hshape hp
    simp [formatDate, beq_eq_false_iff_ne.mpr hz, hshape, hp]
  · intro data
    refine ⟨⟨["date of expense"], "Date of Expense", WriterKind.text false,
        formatDate data.date_of_expense.value, data.date_of_expense.confidence⟩,
      ?_, rfl, rfl⟩
    simp [fieldMappings]

/-- Witness for the C10 theorem: an ISO date is reformatted with zero
padding. -/
theorem date_normalisation_witness :
    formatDate "2024-03-05" = pad2 3 ++ "/" ++ pad2 5 ++ "/" ++ toString 2024 :=
  date_normalisation.2.1 "2024-03-05" 3 5 2024 (by decide) (by decide) (by decide)

end Orchestra
